import Mathlib

/-!
Shallow embedding of `camera_service.py` (ASI camera HTTP service).

The Python program manipulates two pieces of shared mutable state: the
module-level `camera_state` dictionary and the single `ASICamera` object
(`camera`).  Both are embedded below as Lean structures, and every operation
of the program becomes a pure function from the combined state (plus the
results the vendor SDK would return, supplied as explicit oracle inputs) to
the new state, the returned value, and the list of SDK calls performed
(`Event`s).  Exposure times are modelled as natural numbers of microseconds;
frames are modelled as the raw byte list the SDK fills into the buffer.
-/

namespace CameraService

/-- Bytes of an RGB24 frame as delivered by the SDK into the capture buffer. -/
abbrev Frame := List Nat

/-- Wall-clock instant, an opaque token standing for `datetime.now()`. -/
abbrev Timestamp := Nat

/-- ASI control type constant `ASI_GAIN = 0` (from ASICamera2.h). -/
def ASI_GAIN : Nat := 0

/-- ASI control type constant `ASI_EXPOSURE = 1`. -/
def ASI_EXPOSURE : Nat := 1

/-- ASI control type constant `ASI_BANDWIDTHOVERLOAD = 6`. -/
def ASI_BANDWIDTHOVERLOAD : Nat := 6

/-- ASI control type constant `ASI_AUTO_MAX_EXP = 11`. -/
def ASI_AUTO_MAX_EXP : Nat := 11

/-- SDK success result code `ASI_SUCCESS = 0`. -/
def ASI_SUCCESS : Int := 0

/-- The module-level `camera_state` dictionary. -/
structure CameraState where
  connected : Bool
  streaming : Bool
  camera_id : Int
  width : Nat
  height : Nat
  exposure : Nat
  video_exposure : Nat
  gain : Int
  current_frame : Option Frame
  error : Option String
deriving DecidableEq

/-- The fields of the `ASICamera` object (`self`). `capture_thread` records
whether a capture thread object has been created. -/
structure ASICamera where
  camera_id : Int
  is_open : Bool
  streaming : Bool
  frame_buffer : Option Frame
  capture_thread : Bool
deriving DecidableEq

/-- The combined mutable state of the service: the `camera` object and the
`camera_state` dictionary. -/
structure Sys where
  cam : ASICamera
  st : CameraState
deriving DecidableEq

/-- Initial state: the literal `camera_state` dictionary and a freshly
constructed `ASICamera()`. -/
def initSys : Sys :=
  { cam := { camera_id := -1, is_open := false, streaming := false,
             frame_buffer := none, capture_thread := false },
    st := { connected := false, streaming := false, camera_id := -1,
            width := 1280, height := 960, exposure := 1000000,
            video_exposure := 100000, gain := 50,
            current_frame := none, error := none } }

/-- One SDK call performed by the program, in program order. -/
inductive Event where
  | getNumCameras
  | getCameraProperty
  | openCamera
  | initCamera
  | setROIFormat
  | setControl (control : Nat) (value : Int) (auto : Bool)
  | getControl (control : Nat)
  | startVideoCapture
  | stopVideoCapture
  | getVideoData (timeout_ms : Nat)
  | startExposure
  | getExpStatus
  | stopExposure
  | getDataAfterExp
  | closeCamera
deriving DecidableEq

/-- The error-name table used by `capture_snapshot` after `ASIStartExposure`
fails (the program's own error taxonomy, lines 332-351 of the source). -/
def error_names (code : Int) : String :=
  if code = 1 then "ASI_ERROR_INVALID_INDEX"
  else if code = 2 then "ASI_ERROR_INVALID_ID"
  else if code = 3 then "ASI_ERROR_INVALID_CONTROL_TYPE"
  else if code = 4 then "ASI_ERROR_CAMERA_CLOSED"
  else if code = 5 then "ASI_ERROR_CAMERA_REMOVED"
  else if code = 6 then "ASI_ERROR_INVALID_PATH"
  else if code = 7 then "ASI_ERROR_INVALID_FILEFORMAT"
  else if code = 8 then "ASI_ERROR_INVALID_SIZE"
  else if code = 9 then "ASI_ERROR_INVALID_IMGTYPE"
  else if code = 10 then "ASI_ERROR_OUTOF_BOUNDARY"
  else if code = 11 then "ASI_ERROR_TIMEOUT"
  else if code = 12 then "ASI_ERROR_INVALID_SEQUENCE"
  else if code = 13 then "ASI_ERROR_BUFFER_TOO_SMALL"
  else if code = 14 then "ASI_ERROR_VIDEO_MODE_ACTIVE"
  else if code = 15 then "ASI_ERROR_EXPOSURE_IN_PROGRESS"
  else if code = 16 then "ASI_ERROR_GENERAL_ERROR"
  else if code = 17 then "ASI_ERROR_INVALID_MODE"
  else "UNKNOWN_ERROR_" ++ toString code

/-- The `ASIGetVideoData` timeout computed each iteration of `_capture_loop`:
`int(video_exposure/1000.0 * 2 + 500)` clamped by `max(1000, min(t, 5000))`.
For a natural number of microseconds the float truncation equals the floor,
which is `video_exposure * 2 / 1000 + 500` in natural-number division. -/
def timeout_ms (video_exposure : Nat) : Nat :=
  max 1000 (min (video_exposure * 2 / 1000 + 500) 5000)

/-- Modelled from the spec: the timeout formula as the spec words it,
`clamp(cap_ms*2 + 500, 1000, 5000)` with `cap_ms = cap/1000` taken exactly
(rational division, truncated to an integer). Used only to compare with the
source's `timeout_ms`. -/
def timeout_spec (cap : Nat) : Nat :=
  max 1000 (min (Nat.floor ((cap : ℚ) / 1000 * 2 + 500)) 5000)

/-- Result of one iteration of the body of `_capture_loop`: the new state,
the new `consecutive_errors` counter, whether this iteration printed an
error line, and the SDK calls it made. -/
structure LoopIterOut where
  sys : Sys
  consecutive_errors : Nat
  logged : Bool
  events : List Event
deriving DecidableEq

/-- One iteration of the body of the `while self.streaming and self.is_open`
loop in `_capture_loop`, given the result code of `ASIGetVideoData` and the
frame bytes the SDK wrote into the buffer.  On success (`result == 0`) the
image is stored into `self.frame_buffer` and `camera_state['current_frame']`
and the error counter resets; result 2 is exempted by the code's
`elif result != 2` branch; any other result increments the counter and prints
on the 1st and every 10th consecutive error. -/
def captureLoopIter (sys : Sys) (errs : Nat) (result : Int) (img : Frame) :
    LoopIterOut :=
  let t := timeout_ms sys.st.video_exposure
  if result = ASI_SUCCESS then
    { sys := { cam := { sys.cam with frame_buffer := some img },
               st := { sys.st with current_frame := some img } },
      consecutive_errors := 0, logged := false,
      events := [Event.getVideoData t] }
  else if result ≠ 2 then
    { sys := sys, consecutive_errors := errs + 1,
      logged := (errs + 1 == 1 || (errs + 1) % 10 == 0),
      events := [Event.getVideoData t] }
  else
    { sys := sys, consecutive_errors := errs, logged := false,
      events := [Event.getVideoData t] }

/-- `ASICamera.stop_stream`: clears both streaming flags, joins the capture
thread (no modelled state effect), and calls `ASIStopVideoCapture` only when
the handle is open and the id is nonnegative. -/
def ASICamera.stop_stream (sys : Sys) : Sys × List Event :=
  let sys' : Sys := { cam := { sys.cam with streaming := false },
                      st := { sys.st with streaming := false } }
  if sys.cam.is_open ∧ 0 ≤ sys.cam.camera_id then
    (sys', [Event.stopVideoCapture])
  else
    (sys', [])

/-- `ASICamera.start_stream`: returns `False` immediately when the handle is
not open; otherwise applies the streaming-exposure cap and auto-exposure
controls, calls `ASIStartVideoCapture` (result supplied by the oracle), and
on SDK failure records the error and returns `False` without setting any
streaming flag or spawning the capture thread. -/
def ASICamera.start_stream (sys : Sys) (startVideoResult : Int) :
    Bool × Sys × List Event :=
  if sys.cam.is_open then
    let ev : List Event :=
      [Event.setControl ASI_AUTO_MAX_EXP (sys.st.video_exposure : Int) false,
       Event.setControl ASI_EXPOSURE 0 true,
       Event.startVideoCapture]
    if startVideoResult ≠ ASI_SUCCESS then
      (false,
       { sys with st := { sys.st with
           error := some ("Failed to start video capture: " ++ toString startVideoResult) } },
       ev)
    else
      (true,
       { cam := { sys.cam with streaming := true, capture_thread := true },
         st := { sys.st with streaming := true } },
       ev)
  else
    (false, sys, [])

/-- `ASICamera.disconnect`: stops the stream first, then closes the hardware
handle only when it is open with a nonnegative id, and finally clears the
`connected`/`streaming` entries of `camera_state`. -/
def ASICamera.disconnect (sys : Sys) : Sys × List Event :=
  let p := ASICamera.stop_stream sys
  let sys1 := p.1
  let q : Sys × List Event :=
    if sys1.cam.is_open ∧ 0 ≤ sys1.cam.camera_id then
      ({ sys1 with cam := { sys1.cam with is_open := false } }, [Event.closeCamera])
    else
      (sys1, [])
  ({ q.1 with st := { q.1.st with connected := false, streaming := false } },
   p.2 ++ q.2)

/-- The idle-wait loop at the top of `capture_snapshot`:
`while status != 0 and timeout < 10000: sleep(0.1); poll; timeout += 100`.
`st` is the current value of the `status` variable, `k` the index of the next
`ASIGetExpStatus` call, and the fuel argument the number of 100 ms ticks left
before the 10-second bound.  Returns the final status and the number of polls
made inside the loop. -/
def idleWaitGo (polls : Nat → Int) (st : Int) (k : Nat) : Nat → Int × Nat
  | 0 => (st, k)
  | fuel + 1 =>
    if st = 0 then (st, k)
    else idleWaitGo polls (polls k) (k + 1) fuel

/-- The exposure-wait loop of `capture_snapshot`:
`while timeout < max_timeout: poll; if status == 2: break; sleep(0.1);
timeout += 100`.  `st` is the current value of the `status` variable
(initially 0 from `ctypes.c_int(0)`), `k` the index of the next poll, and the
fuel argument the number of iterations the `timeout < max_timeout` guard still
allows.  Returns the final status and the number of polls made. -/
def expPollGo (polls : Nat → Int) (st : Int) (k : Nat) : Nat → Int × Nat
  | 0 => (st, k)
  | fuel + 1 =>
    let st2 := polls k
    if st2 = 2 then (st2, k + 1)
    else expPollGo polls st2 (k + 1) fuel

/-- The whole exposure-wait loop: `timeout` counts up from 0 in steps of 100,
so the guard `timeout < max_timeout` allows `ceil(max_timeout/100)`
iterations. -/
def expPoll (polls : Nat → Int) (max_timeout : Nat) : Int × Nat :=
  expPollGo polls 0 0 ((max_timeout + 99) / 100)

/-- Oracle for one run of `capture_snapshot`: every result the SDK returns
during it.  `initStatus` is the first `ASIGetExpStatus`; `idlePolls k` the
k-th poll inside the idle-wait loop; `expPolls k` the k-th poll inside the
exposure-wait loop; `frame` the bytes `ASIGetDataAfterExp` writes. -/
structure CaptureSdk where
  initStatus : Int
  idlePolls : Nat → Int
  startExpResult : Int
  expPolls : Nat → Int
  getDataResult : Int
  frame : Frame

/-- `ASICamera.capture_snapshot`: returns the captured image or `None`,
together with the (unchanged) state and the SDK calls made.  The Python
method never writes `camera_state` or `self`; it only reads settings and
returns the image. -/
def ASICamera.capture_snapshot (sys : Sys) (sdk : CaptureSdk) :
    Option Frame × Sys × List Event :=
  if sys.cam.is_open then
    let idle : Int × Nat :=
      if sdk.initStatus ≠ 0 then idleWaitGo sdk.idlePolls sdk.initStatus 0 100
      else (sdk.initStatus, 0)
    let evIdle : List Event :=
      Event.getExpStatus :: List.replicate idle.2 Event.getExpStatus ++
        (if idle.1 ≠ 0 then [Event.stopExposure] else [])
    let evSet : List Event :=
      [Event.setControl ASI_EXPOSURE (sys.st.exposure : Int) false,
       Event.setControl ASI_GAIN sys.st.gain false]
    if sdk.startExpResult ≠ ASI_SUCCESS then
      (none, sys, evIdle ++ evSet ++ [Event.startExposure])
    else
      let max_timeout := sys.st.exposure / 1000 + 5000
      let poll := expPoll sdk.expPolls max_timeout
      let evPoll := List.replicate poll.2 Event.getExpStatus
      if poll.1 ≠ 2 then
        (none, sys, evIdle ++ evSet ++ [Event.startExposure] ++ evPoll)
      else if sdk.getDataResult ≠ ASI_SUCCESS then
        (none, sys,
         evIdle ++ evSet ++ [Event.startExposure] ++ evPoll ++ [Event.getDataAfterExp])
      else
        (some sdk.frame, sys,
         evIdle ++ evSet ++ [Event.startExposure] ++ evPoll ++ [Event.getDataAfterExp])
  else
    (none, sys, [])

/-- HTTP response of the `/camera/snapshot` route: a JPEG body or a JSON
error with status 500. -/
inductive SnapshotResponse where
  | jpeg (f : Frame)
  | err (msg : String)
deriving DecidableEq

/-- The `/camera/snapshot` route handler: refuses when not connected or not
open; otherwise remembers `camera.streaming`, stops the stream if it was
active, captures, restarts the stream if it was active (ignoring the restart
result), and answers from the capture result alone. -/
def snapshot (sys : Sys) (sdk : CaptureSdk) (restartResult : Int) :
    SnapshotResponse × Sys × List Event :=
  if sys.st.connected ∧ sys.cam.is_open then
    let was_streaming := sys.cam.streaming
    let p1 : Sys × List Event :=
      if was_streaming then ASICamera.stop_stream sys else (sys, [])
    let p2 := ASICamera.capture_snapshot p1.1 sdk
    let p3 : Sys × List Event :=
      if was_streaming then
        ((ASICamera.start_stream p2.2.1 restartResult).2.1,
         (ASICamera.start_stream p2.2.1 restartResult).2.2)
      else (p2.2.1, [])
    match p2.1 with
    | some f => (SnapshotResponse.jpeg f, p3.1, p1.2 ++ p2.2.2 ++ p3.2)
    | none =>
        (SnapshotResponse.err "Failed to capture snapshot - camera returned None",
         p3.1, p1.2 ++ p2.2.2 ++ p3.2)
  else
    (SnapshotResponse.err "Camera not connected", sys, [])

/-- Body of a `POST /camera/settings` request; a missing key leaves the
corresponding branch of the handler unexecuted. -/
structure SettingsReq where
  gain : Option Int
  photo_exposure : Option Nat
  video_exposure : Option Nat

/-- JSON answer of `POST /camera/settings`. -/
structure SettingsResp where
  success : Bool
  gain : Int
  exposure : Nat
  video_exposure : Nat
deriving DecidableEq

/-- The `/camera/settings` route handler.  The gain and video-exposure
branches stop an active stream, apply and read back the control on an open
device, and restart the stream (restart results `restart1`, `restart2`
supplied by the oracle); the photo-exposure branch only updates the
dictionary. -/
def update_settings (sys : Sys) (req : SettingsReq) (restart1 restart2 : Int) :
    SettingsResp × Sys × List Event :=
  let g1 : Sys × List Event :=
    match req.gain with
    | none => (sys, [])
    | some g =>
      let sysA : Sys := { sys with st := { sys.st with gain := g } }
      let was_streaming := sysA.st.streaming
      if sysA.cam.is_open then
        let pStop : Sys × List Event :=
          if was_streaming then ASICamera.stop_stream sysA else (sysA, [])
        let evSet : List Event :=
          [Event.setControl ASI_GAIN g false, Event.getControl ASI_GAIN]
        let pStart : Sys × List Event :=
          if was_streaming then
            ((ASICamera.start_stream pStop.1 restart1).2.1,
             (ASICamera.start_stream pStop.1 restart1).2.2)
          else (pStop.1, [])
        (pStart.1, pStop.2 ++ evSet ++ pStart.2)
      else (sysA, [])
  let g2 : Sys :=
    match req.photo_exposure with
    | none => g1.1
    | some e => { g1.1 with st := { g1.1.st with exposure := e } }
  let g3 : Sys × List Event :=
    match req.video_exposure with
    | none => (g2, [])
    | some v =>
      let sysA : Sys := { g2 with st := { g2.st with video_exposure := v } }
      let was_streaming := sysA.st.streaming
      if sysA.cam.is_open then
        let pStop : Sys × List Event :=
          if was_streaming then ASICamera.stop_stream sysA else (sysA, [])
        let evSet : List Event :=
          [Event.setControl ASI_AUTO_MAX_EXP (v : Int) false,
           Event.getControl ASI_AUTO_MAX_EXP]
        let pStart : Sys × List Event :=
          if was_streaming then
            ((ASICamera.start_stream pStop.1 restart2).2.1,
             (ASICamera.start_stream pStop.1 restart2).2.2)
          else (pStop.1, [])
        (pStart.1, pStop.2 ++ evSet ++ pStart.2)
      else (sysA, [])
  ({ success := true, gain := g3.1.st.gain, exposure := g3.1.st.exposure,
     video_exposure := g3.1.st.video_exposure },
   g3.1, g1.2 ++ g3.2)

/-- Oracle for one run of `ASICamera.connect`: camera count, the camera info
returned by `ASIGetCameraProperty`, and the result codes of the property,
open and init calls. -/
structure ConnectSdk where
  num_cameras : Nat
  getPropResult : Int
  cameraID : Int
  maxWidth : Nat
  maxHeight : Nat
  openResult : Int
  initResult : Int

/-- `ASICamera.connect`: enumerates cameras, reads the camera properties into
`self.camera_id` and the dictionary's id/width/height, opens and initializes
the device, then configures ROI, auto latches, bandwidth and the initial
gain, and marks the state connected. -/
def ASICamera.connect (sys : Sys) (sdk : ConnectSdk) : Bool × Sys × List Event :=
  if sdk.num_cameras = 0 then
    (false, { sys with st := { sys.st with error := some "No cameras found" } },
     [Event.getNumCameras])
  else if sdk.getPropResult ≠ ASI_SUCCESS then
    (false,
     { sys with st := { sys.st with
         error := some ("Failed to get camera properties: " ++ toString sdk.getPropResult) } },
     [Event.getNumCameras, Event.getCameraProperty])
  else
    let sys1 : Sys :=
      { cam := { sys.cam with camera_id := sdk.cameraID },
        st := { sys.st with
          camera_id := sdk.cameraID,
          width := sdk.maxWidth,
          height := sdk.maxHeight } }
    if sdk.openResult ≠ ASI_SUCCESS then
      (false,
       { sys1 with st := { sys1.st with
           error := some ("Failed to open camera: " ++ toString sdk.openResult) } },
       [Event.getNumCameras, Event.getCameraProperty, Event.openCamera])
    else if sdk.initResult ≠ ASI_SUCCESS then
      (false,
       { sys1 with st := { sys1.st with
           error := some ("Failed to initialize camera: " ++ toString sdk.initResult) } },
       [Event.getNumCameras, Event.getCameraProperty, Event.openCamera,
        Event.initCamera, Event.closeCamera])
    else
      let sys2 : Sys := { sys1 with cam := { sys1.cam with is_open := true } }
      (true,
       { sys2 with st := { sys2.st with connected := true, error := none } },
       [Event.getNumCameras, Event.getCameraProperty, Event.openCamera,
        Event.initCamera, Event.setROIFormat,
        Event.setControl ASI_GAIN 0 true, Event.setControl ASI_EXPOSURE 0 true,
        Event.setControl ASI_BANDWIDTHOVERLOAD 40 false,
        Event.setControl ASI_GAIN sys2.st.gain false, Event.getControl ASI_GAIN])

/-- One camera entry of the `/status` JSON answer. -/
structure CamStatus where
  connected : Bool
  streaming : Bool
  lastSnapshot : Option Timestamp
  fault : Option String
deriving DecidableEq

/-- The `/status` JSON answer (the two camera entries; both are built from
the same `camera_state`). -/
structure StatusResp where
  weatherCam : CamStatus
  meteorCam : CamStatus
deriving DecidableEq

/-- The `/status` route handler: `lastSnapshot` is
`datetime.now().isoformat() if camera_state['current_frame'] else None`, so
it is the serving-time instant whenever a current frame exists. -/
def get_status (sys : Sys) (now : Timestamp) : StatusResp :=
  let c : CamStatus :=
    { connected := sys.st.connected, streaming := sys.st.streaming,
      lastSnapshot := if sys.st.current_frame.isSome then some now else none,
      fault := sys.st.error }
  { weatherCam := c, meteorCam := c }

/-- One externally driven operation of the service, with the SDK results it
consumes bundled in.  `loopIter` is one iteration of the capture loop, which
only runs while `self.streaming and self.is_open`. -/
inductive Op where
  | connectOp (sdk : ConnectSdk)
  | startStreamOp (r : Int)
  | stopStreamOp
  | loopIter (result : Int) (img : Frame)
  | snapshotOp (sdk : CaptureSdk) (restart : Int)
  | settingsOp (req : SettingsReq) (r1 r2 : Int)
  | disconnectOp

/-- State transition of one operation. -/
def applyOp (sys : Sys) : Op → Sys
  | Op.connectOp sdk => (ASICamera.connect sys sdk).2.1
  | Op.startStreamOp r => (ASICamera.start_stream sys r).2.1
  | Op.stopStreamOp => (ASICamera.stop_stream sys).1
  | Op.loopIter r img =>
      if sys.cam.streaming && sys.cam.is_open then (captureLoopIter sys 0 r img).sys
      else sys
  | Op.snapshotOp sdk restart => (snapshot sys sdk restart).2.1
  | Op.settingsOp req r1 r2 => (update_settings sys req r1 r2).2.1
  | Op.disconnectOp => (ASICamera.disconnect sys).1

/-- Run a sequence of operations from a state. -/
def runOps (sys : Sys) (ops : List Op) : Sys :=
  List.foldl applyOp sys ops

/-- Whether an operation, fired in the given state, stores a frame into the
shared current-frame buffer.  Only a successful capture-loop iteration does. -/
def storesFrame (sys : Sys) : Op → Bool
  | Op.loopIter r _ => sys.cam.streaming && sys.cam.is_open && (r == 0)
  | _ => false

/-- Whether any operation of the sequence stores a frame. -/
def anyStore : Sys → List Op → Bool
  | _, [] => false
  | sys, op :: rest => storesFrame sys op || anyStore (applyOp sys op) rest

/-- A connected, open, idle state, as after a successful `connect`. -/
def openSys : Sys :=
  { cam := { camera_id := 0, is_open := true, streaming := false,
             frame_buffer := none, capture_thread := false },
    st := { initSys.st with connected := true, camera_id := 0 } }

/-- A connected, open, streaming state, as after a successful
`start_stream`. -/
def streamingSys : Sys :=
  { cam := { camera_id := 0, is_open := true, streaming := true,
             frame_buffer := none, capture_thread := true },
    st := { initSys.st with
      connected := true,
      streaming := true,
      camera_id := 0 } }

/-- Capture oracle where the device is idle and everything succeeds on the
first exposure poll. -/
def okCaptureSdk : CaptureSdk :=
  { initStatus := 0, idlePolls := fun _ => 0, startExpResult := 0,
    expPolls := fun _ => 2, getDataResult := 0, frame := [1, 2, 3] }

/-- Capture oracle where every exposure poll reports status 3
(`ASI_EXP_FAILED`). -/
def failedCaptureSdk : CaptureSdk :=
  { initStatus := 0, idlePolls := fun _ => 0, startExpResult := 0,
    expPolls := fun _ => 3, getDataResult := 0, frame := [1, 2, 3] }

/-- Capture oracle where the first exposure poll reports `Working` and the
second reports `Success`. -/
def slowCaptureSdk : CaptureSdk :=
  { initStatus := 0, idlePolls := fun _ => 0, startExpResult := 0,
    expPolls := fun k => if k = 0 then 1 else 2, getDataResult := 0,
    frame := [4, 5, 6] }

/-- A settings request carrying only a gain value. -/
def gainReq (g : Int) : SettingsReq :=
  { gain := some g, photo_exposure := none, video_exposure := none }

/-- A settings request carrying only a photo-exposure value. -/
def photoReq (e : Nat) : SettingsReq :=
  { gain := none, photo_exposure := some e, video_exposure := none }

/-- Connect oracle for a healthy single camera. -/
def okConnectSdk : ConnectSdk :=
  { num_cameras := 1, getPropResult := 0, cameraID := 0, maxWidth := 4,
    maxHeight := 4, openResult := 0, initResult := 0 }

/-- A run that connects, starts streaming, and pulls one successful frame. -/
def c10ops : List Op :=
  [Op.connectOp okConnectSdk, Op.startStreamOp 0, Op.loopIter 0 [7]]

/-- `stop_stream` always produces the same state: both streaming flags
cleared; the guard only decides whether `ASIStopVideoCapture` is called. -/
theorem stop_stream_state (sys : Sys) :
    (ASICamera.stop_stream sys).1 =
      { cam := { sys.cam with streaming := false },
        st := { sys.st with streaming := false } } := by
  unfold ASICamera.stop_stream
  split <;> rfl

/-- `capture_snapshot` never mutates the service state. -/
theorem capture_snapshot_state (sys : Sys) (sdk : CaptureSdk) :
    (ASICamera.capture_snapshot sys sdk).2.1 = sys := by
  unfold ASICamera.capture_snapshot
  dsimp only
  repeat' split <;> try rfl

theorem start_stream_is_open (sys : Sys) (r : Int) :
    (ASICamera.start_stream sys r).2.1.cam.is_open = sys.cam.is_open := by
  unfold ASICamera.start_stream
  dsimp only
  repeat' split
  all_goals rfl

theorem start_stream_camera_id (sys : Sys) (r : Int) :
    (ASICamera.start_stream sys r).2.1.cam.camera_id = sys.cam.camera_id := by
  unfold ASICamera.start_stream
  dsimp only
  repeat' split
  all_goals rfl

theorem start_stream_current_frame (sys : Sys) (r : Int) :
    (ASICamera.start_stream sys r).2.1.st.current_frame = sys.st.current_frame := by
  unfold ASICamera.start_stream
  dsimp only
  repeat' split
  all_goals rfl

theorem start_stream_frame_buffer (sys : Sys) (r : Int) :
    (ASICamera.start_stream sys r).2.1.cam.frame_buffer = sys.cam.frame_buffer := by
  unfold ASICamera.start_stream
  dsimp only
  repeat' split
  all_goals rfl

theorem start_stream_gain (sys : Sys) (r : Int) :
    (ASICamera.start_stream sys r).2.1.st.gain = sys.st.gain := by
  unfold ASICamera.start_stream
  dsimp only
  repeat' split
  all_goals rfl

theorem start_stream_exposure (sys : Sys) (r : Int) :
    (ASICamera.start_stream sys r).2.1.st.exposure = sys.st.exposure := by
  unfold ASICamera.start_stream
  dsimp only
  repeat' split
  all_goals rfl

theorem start_stream_video_exposure (sys : Sys) (r : Int) :
    (ASICamera.start_stream sys r).2.1.st.video_exposure = sys.st.video_exposure := by
  unfold ASICamera.start_stream
  dsimp only
  repeat' split
  all_goals rfl

/-- When the handle is open, `start_stream` always issues the two control
writes followed by `ASIStartVideoCapture`, whatever the SDK then answers. -/
theorem start_stream_events_open (sys : Sys) (r : Int) (h : sys.cam.is_open = true) :
    (ASICamera.start_stream sys r).2.2 =
      [Event.setControl ASI_AUTO_MAX_EXP (sys.st.video_exposure : Int) false,
       Event.setControl ASI_EXPOSURE 0 true,
       Event.startVideoCapture] := by
  unfold ASICamera.start_stream
  dsimp only
  rw [if_pos (by simp [h] : sys.cam.is_open = true)]
  split <;> rfl

/-- Full state characterization of `disconnect`: streaming flags and
`connected` cleared, and the handle closed exactly when it was open with a
nonnegative id. -/
theorem disconnect_state (sys : Sys) :
    (ASICamera.disconnect sys).1 =
      { cam := { sys.cam with
          streaming := false,
          is_open := if sys.cam.is_open ∧ 0 ≤ sys.cam.camera_id then false
                     else sys.cam.is_open },
        st := { sys.st with streaming := false, connected := false } } := by
  unfold ASICamera.disconnect
  dsimp only
  rw [stop_stream_state]
  by_cases h : sys.cam.is_open ∧ 0 ≤ sys.cam.camera_id
  · simp only [h, if_pos, if_true]
    simp [h]
  · simp [h]

/-- The hardware calls of `disconnect`: `ASIStopVideoCapture` and
`ASICloseCamera` happen exactly when the handle is open with a nonnegative
id. -/
theorem disconnect_events (sys : Sys) :
    (ASICamera.disconnect sys).2 =
      if sys.cam.is_open ∧ 0 ≤ sys.cam.camera_id then
        [Event.stopVideoCapture, Event.closeCamera]
      else [] := by
  unfold ASICamera.disconnect ASICamera.stop_stream
  by_cases h : sys.cam.is_open ∧ 0 ≤ sys.cam.camera_id
  · simp [h]
  · simp [h]

/-- Helper: the float truncation in the video timeout equals natural
division. -/
theorem timeout_floor_eq (cap : Nat) :
    Nat.floor ((cap : ℚ) / 1000 * 2 + 500) = cap * 2 / 1000 + 500 := by
  have h1 : ((cap : ℚ) / 1000 * 2 + 500) =
      ((cap * 2 : ℕ) : ℚ) / ((1000 : ℕ) : ℚ) + ((500 : ℕ) : ℚ) := by
    push_cast
    ring
  rw [h1, Nat.floor_add_nat (by positivity), Nat.floor_div_nat, Nat.floor_natCast]

/-- C1: In `_capture_loop`, the code exempts SDK result code 2 from the
consecutive-error counter (its comment calls 2 "timeout"), yet the program's
own error taxonomy (`error_names`) names code 11 `ASI_ERROR_TIMEOUT` and
code 2 `ASI_ERROR_INVALID_ID`; so a genuine SDK timeout (result 11)
increments the counter while `ASI_ERROR_INVALID_ID` (result 2) does not.
Every non-success result other than 2 increments the counter, an error line
is printed exactly on the 1st and every 10th consecutive error, and no
result changes the `streaming`/`is_open` loop guard, so errors never stop
the loop. -/
theorem C1_video_loop_error_counting (sys : Sys) (errs : Nat) (img : Frame) :
    error_names 11 = "ASI_ERROR_TIMEOUT"
  ∧ error_names 2 = "ASI_ERROR_INVALID_ID"
  ∧ (captureLoopIter sys errs 11 img).consecutive_errors = errs + 1
  ∧ (captureLoopIter sys errs 2 img).consecutive_errors = errs
  ∧ (∀ r : Int, (captureLoopIter sys errs r img).consecutive_errors =
      if r = 0 then 0 else if r = 2 then errs else errs + 1)
  ∧ (∀ r : Int, (captureLoopIter sys errs r img).logged =
      if r = 0 ∨ r = 2 then false
      else (errs + 1 == 1 || (errs + 1) % 10 == 0))
  ∧ (∀ r : Int, (captureLoopIter sys errs r img).sys.cam.streaming = sys.cam.streaming
      ∧ (captureLoopIter sys errs r img).sys.cam.is_open = sys.cam.is_open) := by
  have key : ∀ r : Int, (captureLoopIter sys errs r img).consecutive_errors =
      if r = 0 then 0 else if r = 2 then errs else errs + 1 := by
    intro r
    by_cases h0 : r = 0
    · subst h0; simp [captureLoopIter, ASI_SUCCESS]
    · by_cases h2 : r = 2
      · subst h2; simp [captureLoopIter, ASI_SUCCESS]
      · simp [captureLoopIter, ASI_SUCCESS, h0, h2]
  refine ⟨by decide, by decide, ?_, ?_, key, ?_, ?_⟩
  · rw [key]; norm_num
  · rw [key]; norm_num
  · intro r
    by_cases h0 : r = 0
    · subst h0; simp [captureLoopIter, ASI_SUCCESS]
    · by_cases h2 : r = 2
      · subst h2; simp [captureLoopIter, ASI_SUCCESS]
      · simp [captureLoopIter, ASI_SUCCESS, h0, h2]
  · intro r
    by_cases h0 : r = 0
    · subst h0; simp [captureLoopIter, ASI_SUCCESS]
    · by_cases h2 : r = 2
      · subst h2; simp [captureLoopIter, ASI_SUCCESS]
      · simp [captureLoopIter, ASI_SUCCESS, h0, h2]

/-- C5: Every iteration of `_capture_loop` calls `ASIGetVideoData` with
timeout `timeout_ms` of the current streaming-exposure cap; `timeout_ms`
agrees with the spec formula `clamp(cap/1000 * 2 + 500, 1000, 5000)`
(`timeout_spec`), is monotone nondecreasing in the cap, and always lies in
[1000, 5000]. -/
theorem C5_video_timeout_formula (sys : Sys) (errs : Nat) (r : Int) (img : Frame) :
    (captureLoopIter sys errs r img).events =
      [Event.getVideoData (timeout_ms sys.st.video_exposure)]
  ∧ (∀ cap : Nat, timeout_ms cap = timeout_spec cap)
  ∧ (∀ c1 c2 : Nat, c1 ≤ c2 → timeout_ms c1 ≤ timeout_ms c2)
  ∧ (∀ cap : Nat, 1000 ≤ timeout_ms cap ∧ timeout_ms cap ≤ 5000) := by
  refine ⟨?_, ?_, ?_, ?_⟩
  · unfold captureLoopIter
    dsimp only
    repeat' split
    all_goals rfl
  · intro cap
    unfold timeout_ms timeout_spec
    rw [timeout_floor_eq]
  · intro c1 c2 h
    unfold timeout_ms
    have hd : c1 * 2 / 1000 + 500 ≤ c2 * 2 / 1000 + 500 := by
      have := Nat.div_le_div_right (c := 1000) (Nat.mul_le_mul_right 2 h)
      omega
    exact max_le_max (le_refl 1000) (min_le_min hd (le_refl 5000))
  · intro cap
    unfold timeout_ms
    constructor
    · exact le_max_left _ _
    · exact max_le (by norm_num) (min_le_right _ _)

/-- C6: `start_stream` returns `False` with no SDK call and no state change
at all when the handle is not open; and when the SDK rejects
`ASIStartVideoCapture` it returns `False` leaving the whole state unchanged
except for the recorded error text — in particular neither streaming flag is
set and no capture thread is spawned. -/
theorem C6_start_stream_failure (sys : Sys) (r : Int) :
    (sys.cam.is_open = false → ASICamera.start_stream sys r = (false, sys, []))
  ∧ (sys.cam.is_open = true → r ≠ 0 →
      (ASICamera.start_stream sys r).1 = false
      ∧ (ASICamera.start_stream sys r).2.1 =
          { sys with st := { sys.st with
              error := some ("Failed to start video capture: " ++ toString r) } }) := by
  constructor
  · intro h
    unfold ASICamera.start_stream
    rw [if_neg (by simp [h])]
  · intro h hr
    unfold ASICamera.start_stream
    rw [if_pos (by simp [h]), if_pos (by simp [ASI_SUCCESS, hr])]
    exact ⟨rfl, rfl⟩

/-- C6 witness: concrete instantiations of both failure cases. -/
theorem C6_start_stream_failure_witness :
    ASICamera.start_stream initSys 1 = (false, initSys, [])
  ∧ (ASICamera.start_stream openSys 3).1 = false := by
  constructor
  · exact (C6_start_stream_failure initSys 1).1 rfl
  · exact ((C6_start_stream_failure openSys 3).2 rfl (by decide)).1

/-- C9: `disconnect` on a closed handle performs no hardware call, and when
the state is already fully disconnected it is a no-op; composing
`disconnect` with `disconnect` always equals a single `disconnect`, the
second call performing no hardware call at all. -/
theorem C9_disconnect_idempotent (sys : Sys) :
    (sys.cam.is_open = false → (ASICamera.disconnect sys).2 = [])
  ∧ (sys.cam.is_open = false → sys.st.connected = false →
      sys.st.streaming = false → sys.cam.streaming = false →
      (ASICamera.disconnect sys).1 = sys)
  ∧ (ASICamera.disconnect (ASICamera.disconnect sys).1).1 = (ASICamera.disconnect sys).1
  ∧ (ASICamera.disconnect (ASICamera.disconnect sys).1).2 = [] := by
  refine ⟨?_, ?_, ?_, ?_⟩
  · intro h
    rw [disconnect_events]
    simp [h]
  · intro h hc hs hcs
    rw [disconnect_state]
    obtain ⟨⟨cid, io, cstr, fb, ct⟩, ⟨co, str, sid, w, hgt, e, ve, g, cf, er⟩⟩ := sys
    simp_all
  · rw [disconnect_state, disconnect_state]
    by_cases h : sys.cam.is_open = true ∧ 0 ≤ sys.cam.camera_id
    · simp [h]
    · simp [h]
  · rw [disconnect_events, disconnect_state]
    by_cases h : sys.cam.is_open = true ∧ 0 ≤ sys.cam.camera_id
    · simp [h]
    · simp [h]

/-- C9 witness: on the initial (closed) state, `disconnect` makes no
hardware call and changes nothing. -/
theorem C9_disconnect_idempotent_witness :
    (ASICamera.disconnect initSys).2 = []
  ∧ (ASICamera.disconnect initSys).1 = initSys := by
  exact ⟨(C9_disconnect_idempotent initSys).1 rfl,
         (C9_disconnect_idempotent initSys).2.1 rfl rfl rfl rfl⟩

/-- Helper: if no poll within the fuel bound reports success and the
incoming status is not success, the poll loop ends without success. -/
theorem expPollGo_no_success (polls : Nat → Int) :
    ∀ (fuel : Nat) (st : Int) (k : Nat), st ≠ 2 →
      (∀ i, i < fuel → polls (k + i) ≠ 2) →
      (expPollGo polls st k fuel).1 ≠ 2 := by
  intro fuel
  induction fuel with
  | zero =>
    intro st k hst _
    simpa [expPollGo] using hst
  | succ n ih =>
    intro st k hst h
    have hk : polls k ≠ 2 := by simpa using h 0 (Nat.succ_pos n)
    unfold expPollGo
    dsimp only
    rw [if_neg hk]
    refine ih (polls k) (k + 1) hk fun i hi => ?_
    have h2 := h (i + 1) (by omega)
    have e : k + (i + 1) = k + 1 + i := by omega
    rwa [e] at h2

/-- Helper: the poll loop stops at the first success, after exactly `j + 1`
polls when poll `j` is the first to report success within the fuel bound. -/
theorem expPollGo_first_success (polls : Nat → Int) :
    ∀ (j fuel : Nat) (st : Int) (k : Nat), j < fuel →
      polls (k + j) = 2 → (∀ i, i < j → polls (k + i) ≠ 2) →
      expPollGo polls st k fuel = (2, k + j + 1) := by
  intro j
  induction j with
  | zero =>
    intro fuel st k hj h2 _
    obtain ⟨n, rfl⟩ : ∃ n, fuel = n + 1 := ⟨fuel - 1, by omega⟩
    unfold expPollGo
    dsimp only
    rw [if_pos (by simpa using h2)]
    simpa using h2
  | succ m ih =>
    intro fuel st k hj h2 hlt
    obtain ⟨n, rfl⟩ : ∃ n, fuel = n + 1 := ⟨fuel - 1, by omega⟩
    have hk : polls k ≠ 2 := by simpa using hlt 0 (Nat.succ_pos m)
    unfold expPollGo
    dsimp only
    rw [if_neg hk]
    have h2' : polls (k + 1 + m) = 2 := by
      have e : k + (m + 1) = k + 1 + m := by omega
      rwa [e] at h2
    have hlt' : ∀ i, i < m → polls (k + 1 + i) ≠ 2 := fun i hi => by
      have := hlt (i + 1) (by omega)
      have e : k + (i + 1) = k + 1 + i := by omega
      rwa [e] at this
    have := ih n (polls k) (k + 1) (by omega) h2' hlt'
    rw [this]
    congr 1
    omega

/-- Helper: the effect of one loop iteration on the shared current-frame
buffer. -/
theorem captureLoopIter_frame (sys : Sys) (errs : Nat) (r : Int) (img : Frame) :
    (captureLoopIter sys errs r img).sys.st.current_frame =
      (if r = 0 then some img else sys.st.current_frame)
  ∧ (captureLoopIter sys errs r img).sys.cam.frame_buffer =
      (if r = 0 then some img else sys.cam.frame_buffer) := by
  by_cases h0 : r = 0
  · subst h0; simp [captureLoopIter, ASI_SUCCESS]
  · by_cases h2 : r = 2 <;> simp [captureLoopIter, ASI_SUCCESS, h0, h2]

/-- C2 counterexample: on a connected, open, idle state with an empty frame
buffer, `capture_snapshot` succeeds and returns a frame, and the snapshot
route serves that JPEG, yet the shared current-frame buffer still holds
nothing afterwards — the returned frame is not stored as `lastFrame`. -/
theorem C2_counterexample :
    (ASICamera.capture_snapshot openSys okCaptureSdk).1 = some [1, 2, 3]
  ∧ (ASICamera.capture_snapshot openSys okCaptureSdk).2.1.st.current_frame = none
  ∧ (ASICamera.capture_snapshot openSys okCaptureSdk).2.1.cam.frame_buffer = none
  ∧ (snapshot openSys okCaptureSdk 0).1 = SnapshotResponse.jpeg [1, 2, 3]
  ∧ (snapshot openSys okCaptureSdk 0).2.1.st.current_frame = none := by
  refine ⟨by decide, by decide, by decide, by decide, by decide⟩

/-- Helper: the snapshot route never changes the shared current-frame
buffer or the object frame buffer. -/
theorem snapshot_frames (sys : Sys) (sdk : CaptureSdk) (restart : Int) :
    (snapshot sys sdk restart).2.1.st.current_frame = sys.st.current_frame
  ∧ (snapshot sys sdk restart).2.1.cam.frame_buffer = sys.cam.frame_buffer := by
  unfold snapshot
  dsimp only
  repeat' split
  all_goals
    simp [capture_snapshot_state, start_stream_current_frame,
      start_stream_frame_buffer, stop_stream_state]

/-- C2 (amended): a successful `capture_snapshot` returns the frame to its
caller but does not store it: `camera_state['current_frame']` and
`self.frame_buffer` are left unchanged both by `capture_snapshot` itself and
by the whole `/camera/snapshot` route; the shared buffer is written only by
the video-pull loop. -/
theorem C2_snapshot_not_stored (sys : Sys) (sdk : CaptureSdk) (restart : Int) :
    (ASICamera.capture_snapshot sys sdk).2.1 = sys
  ∧ (snapshot sys sdk restart).2.1.st.current_frame = sys.st.current_frame
  ∧ (snapshot sys sdk restart).2.1.cam.frame_buffer = sys.cam.frame_buffer := by
  exact ⟨capture_snapshot_state sys sdk, (snapshot_frames sys sdk restart).1,
         (snapshot_frames sys sdk restart).2⟩

/-- C3 counterexample: with photo exposure 1,000,000 us the deadline is
6000 ms, so when every exposure poll reports status 3 (`ASI_EXP_FAILED`) the
loop performs all 60 polls — it does not terminate as soon as the status is
`Failed` (that would be 1 poll) — and only then the snapshot fails. -/
theorem C3_counterexample :
    (expPoll failedCaptureSdk.expPolls (openSys.st.exposure / 1000 + 5000)).2 = 60
  ∧ (expPoll failedCaptureSdk.expPolls (openSys.st.exposure / 1000 + 5000)).2 ≠ 1
  ∧ (ASICamera.capture_snapshot openSys failedCaptureSdk).1 = none := by
  refine ⟨by decide, by decide, by decide⟩

/-- C3 (amended): during `capture_snapshot` the exposure status is polled
every ~100 ms; the loop terminates as soon as a poll reports `Success` (2),
or else only when the deadline of `(exposure/1000 + 5000)` ms elapses —
a `Failed` status does not end the polling early — and if no poll reports
`Success` before the deadline (in particular when the status is `Failed`)
the snapshot returns `None`. -/
theorem C3_exposure_poll (sys : Sys) (sdk : CaptureSdk)
    (ho : sys.cam.is_open = true) (hi : sdk.initStatus = 0)
    (hs : sdk.startExpResult = 0) :
    ((∀ k, k < (sys.st.exposure / 1000 + 5000 + 99) / 100 → sdk.expPolls k ≠ 2) →
        (ASICamera.capture_snapshot sys sdk).1 = none)
  ∧ (∀ j, j < (sys.st.exposure / 1000 + 5000 + 99) / 100 →
        sdk.expPolls j = 2 → (∀ i, i < j → sdk.expPolls i ≠ 2) →
        expPoll sdk.expPolls (sys.st.exposure / 1000 + 5000) = (2, j + 1)) := by
  constructor
  · intro hnone
    have hfin : (expPoll sdk.expPolls (sys.st.exposure / 1000 + 5000)).1 ≠ 2 := by
      unfold expPoll
      exact expPollGo_no_success sdk.expPolls _ 0 0 (by decide)
        fun i hi2 => by simpa using hnone i (by simpa using hi2)
    simp [ASICamera.capture_snapshot, ho, hi, hs, ASI_SUCCESS, hfin]
  · intro j hj h2 hlt
    unfold expPoll
    have := expPollGo_first_success sdk.expPolls j ((sys.st.exposure / 1000 + 5000 + 99) / 100)
      0 0 hj (by simpa using h2) (fun i hi2 => by simpa using hlt i hi2)
    simpa using this

/-- C3 witness: concrete instantiations — a permanently failed status yields
`None`, and with the first poll `Working` and the second `Success` the loop
stops after exactly two polls. -/
theorem C3_exposure_poll_witness :
    (ASICamera.capture_snapshot openSys failedCaptureSdk).1 = none
  ∧ expPoll slowCaptureSdk.expPolls (openSys.st.exposure / 1000 + 5000) = (2, 2) := by
  constructor
  · exact (C3_exposure_poll openSys failedCaptureSdk rfl rfl rfl).1 (by decide)
  · exact (C3_exposure_poll openSys slowCaptureSdk rfl rfl rfl).2 1 (by decide)
      (by decide) (by decide)

/-- C4: on a connected, open, streaming state the snapshot route first stops
the stream, then captures, then attempts to restart the stream: its SDK
trace is exactly the stop trace, the capture trace and the start-stream
trace in that order, and `ASIStartVideoCapture` is attempted even when the
capture failed; the HTTP response does not depend on the restart result — it
is the JPEG of the captured frame on success and the 500 error answer on
failure. -/
theorem C4_snapshot_stream_resume (sys : Sys) (sdk : CaptureSdk) (r r' : Int)
    (hc : sys.st.connected = true) (ho : sys.cam.is_open = true)
    (hs : sys.cam.streaming = true) :
    (snapshot sys sdk r).2.2 =
      (ASICamera.stop_stream sys).2
        ++ (ASICamera.capture_snapshot (ASICamera.stop_stream sys).1 sdk).2.2
        ++ (ASICamera.start_stream (ASICamera.stop_stream sys).1 r).2.2
  ∧ Event.startVideoCapture ∈ (snapshot sys sdk r).2.2
  ∧ (snapshot sys sdk r).1 = (snapshot sys sdk r').1
  ∧ (∀ f, (ASICamera.capture_snapshot (ASICamera.stop_stream sys).1 sdk).1 = some f →
      (snapshot sys sdk r).1 = SnapshotResponse.jpeg f)
  ∧ ((ASICamera.capture_snapshot (ASICamera.stop_stream sys).1 sdk).1 = none →
      (snapshot sys sdk r).1 =
        SnapshotResponse.err "Failed to capture snapshot - camera returned None") := by
  have hopen1 : (ASICamera.stop_stream sys).1.cam.is_open = true := by
    rw [stop_stream_state]
    exact ho
  have hkey : ∀ rr : Int, snapshot sys sdk rr =
      ((match (ASICamera.capture_snapshot (ASICamera.stop_stream sys).1 sdk).1 with
        | some f => SnapshotResponse.jpeg f
        | none => SnapshotResponse.err "Failed to capture snapshot - camera returned None"),
       (ASICamera.start_stream (ASICamera.stop_stream sys).1 rr).2.1,
       (ASICamera.stop_stream sys).2
         ++ (ASICamera.capture_snapshot (ASICamera.stop_stream sys).1 sdk).2.2
         ++ (ASICamera.start_stream (ASICamera.stop_stream sys).1 rr).2.2) := by
    intro rr
    cases hcapres : (ASICamera.capture_snapshot (ASICamera.stop_stream sys).1 sdk).1 with
    | some f => simp [snapshot, hc, ho, hs, capture_snapshot_state, hcapres]
    | none => simp [snapshot, hc, ho, hs, capture_snapshot_state, hcapres]
  refine ⟨?_, ?_, ?_, ?_, ?_⟩
  · rw [hkey r]
  · rw [hkey r]
    rw [show (ASICamera.start_stream (ASICamera.stop_stream sys).1 r).2.2 =
        [Event.setControl ASI_AUTO_MAX_EXP ((ASICamera.stop_stream sys).1.st.video_exposure : Int) false,
         Event.setControl ASI_EXPOSURE 0 true,
         Event.startVideoCapture] from start_stream_events_open _ _ hopen1]
    simp
  · rw [hkey r, hkey r']
  · intro f hf
    rw [hkey r]
    simp [hf]
  · intro hf
    rw [hkey r]
    simp [hf]

/-- C4 witness: with a streaming state, a capture that fails (permanent
`Failed` status) and an SDK that also rejects the restart, the response is
the same as with a successful restart, and the restart was attempted. -/
theorem C4_snapshot_stream_resume_witness :
    (snapshot streamingSys failedCaptureSdk 3).1 = (snapshot streamingSys failedCaptureSdk 0).1
  ∧ Event.startVideoCapture ∈ (snapshot streamingSys failedCaptureSdk 3).2.2 := by
  constructor
  · exact (C4_snapshot_stream_resume streamingSys failedCaptureSdk 3 0 rfl rfl rfl).2.2.1
  · exact (C4_snapshot_stream_resume streamingSys failedCaptureSdk 3 0 rfl rfl rfl).2.1

/-- Helper: state and response of a gain-only settings update: the stored
gain becomes the requested value, the other two stored settings are
untouched, and the response reflects exactly that. -/
theorem update_gain_resp (sys : Sys) (g ra rb : Int) :
    (update_settings sys (gainReq g) ra rb).2.1.st.gain = g
  ∧ (update_settings sys (gainReq g) ra rb).2.1.st.exposure = sys.st.exposure
  ∧ (update_settings sys (gainReq g) ra rb).2.1.st.video_exposure = sys.st.video_exposure
  ∧ (update_settings sys (gainReq g) ra rb).1 =
      { success := true, gain := g, exposure := sys.st.exposure,
        video_exposure := sys.st.video_exposure } := by
  refine ⟨?_, ?_, ?_, ?_⟩
  all_goals
    unfold update_settings gainReq
    dsimp only
    repeat' split
    all_goals
      simp_all [stop_stream_state, start_stream_gain, start_stream_exposure,
        start_stream_video_exposure]

/-- C7: `POST /camera/settings` with only a gain value answers with exactly
that gain and `success`; repeating the same request is idempotent — the
second response equals the first and the stored settings triple
(gain, photo exposure, video exposure) is unchanged by the repeat, whatever
the SDK answers to the stream restarts. -/
theorem C7_settings_gain_idempotent (sys : Sys) (g ra rb rc rd : Int) :
    (update_settings sys (gainReq g) ra rb).1.gain = g
  ∧ (update_settings sys (gainReq g) ra rb).1.success = true
  ∧ (update_settings (update_settings sys (gainReq g) ra rb).2.1 (gainReq g) rc rd).1 =
      (update_settings sys (gainReq g) ra rb).1
  ∧ (update_settings (update_settings sys (gainReq g) ra rb).2.1 (gainReq g) rc rd).2.1.st.gain
      = (update_settings sys (gainReq g) ra rb).2.1.st.gain
  ∧ (update_settings (update_settings sys (gainReq g) ra rb).2.1 (gainReq g) rc rd).2.1.st.exposure
      = (update_settings sys (gainReq g) ra rb).2.1.st.exposure
  ∧ (update_settings (update_settings sys (gainReq g) ra rb).2.1 (gainReq g) rc rd).2.1.st.video_exposure
      = (update_settings sys (gainReq g) ra rb).2.1.st.video_exposure := by
  obtain ⟨h1g, h1e, h1v, h1r⟩ := update_gain_resp sys g ra rb
  obtain ⟨h2g, h2e, h2v, h2r⟩ :=
    update_gain_resp (update_settings sys (gainReq g) ra rb).2.1 g rc rd
  refine ⟨?_, ?_, ?_, ?_, ?_, ?_⟩
  · rw [h1r]
  · rw [h1r]
  · rw [h1r, h2r, h1e, h1v]
  · rw [h1g, h2g]
  · rw [h2e]
  · rw [h2v]

/-- C8: a settings update carrying only `photo_exposure` performs no SDK
call at all and changes nothing but the stored photo-exposure value — the
response reflects the new value and the untouched gain and video exposure —
and the new value is applied to hardware only by the next
`capture_snapshot`, which issues the explicit (non-auto) `ASI_EXPOSURE`
control write with it. -/
theorem C8_photo_exposure_lazy (sys : Sys) (e : Nat) (ra rb : Int) (sdk : CaptureSdk) :
    update_settings sys (photoReq e) ra rb =
      ({ success := true, gain := sys.st.gain, exposure := e,
         video_exposure := sys.st.video_exposure },
       { sys with st := { sys.st with exposure := e } }, [])
  ∧ (sys.cam.is_open = true →
      Event.setControl ASI_EXPOSURE (e : Int) false ∈
        (ASICamera.capture_snapshot
          { sys with st := { sys.st with exposure := e } } sdk).2.2) := by
  constructor
  · rfl
  · intro ho
    unfold ASICamera.capture_snapshot
    dsimp only
    rw [if_pos (by simpa using ho)]
    repeat' split
    all_goals simp

/-- C8 witness: with the open state and a photo exposure of 5 us, the next
`capture_snapshot` writes that exposure to the `ASI_EXPOSURE` control. -/
theorem C8_photo_exposure_lazy_witness :
    Event.setControl ASI_EXPOSURE ((5 : Nat) : Int) false ∈
      (ASICamera.capture_snapshot
        { openSys with st := { openSys.st with exposure := 5 } } okCaptureSdk).2.2 :=
  (C8_photo_exposure_lazy openSys 5 0 0 okCaptureSdk).2 rfl

/-- Helper: `connect` never touches the shared current-frame buffer. -/
theorem connect_current_frame (sys : Sys) (sdk : ConnectSdk) :
    (ASICamera.connect sys sdk).2.1.st.current_frame = sys.st.current_frame := by
  unfold ASICamera.connect
  dsimp only
  repeat' split
  all_goals rfl

/-- Helper: the settings route never touches the shared current-frame
buffer. -/
theorem update_settings_current_frame (sys : Sys) (req : SettingsReq) (r1 r2 : Int) :
    (update_settings sys req r1 r2).2.1.st.current_frame = sys.st.current_frame := by
  unfold update_settings
  dsimp only
  repeat' split
  all_goals simp [stop_stream_state, start_stream_current_frame]

/-- Helper: `disconnect` never touches the shared current-frame buffer. -/
theorem disconnect_current_frame (sys : Sys) :
    (ASICamera.disconnect sys).1.st.current_frame = sys.st.current_frame := by
  rw [disconnect_state]

/-- Helper: an operation that does not store a frame leaves the shared
current-frame buffer unchanged. -/
theorem applyOp_frame_none (sys : Sys) (op : Op) (h : storesFrame sys op = false) :
    (applyOp sys op).st.current_frame = sys.st.current_frame := by
  cases op with
  | connectOp sdk => exact connect_current_frame sys sdk
  | startStreamOp r => exact start_stream_current_frame sys r
  | stopStreamOp =>
    show (ASICamera.stop_stream sys).1.st.current_frame = sys.st.current_frame
    rw [stop_stream_state]
  | loopIter r img =>
    simp only [storesFrame] at h
    simp only [applyOp]
    by_cases hg : (sys.cam.streaming && sys.cam.is_open) = true
    · rw [if_pos hg, (captureLoopIter_frame sys 0 r img).1]
      have hr : (r == 0) = false := by
        rwa [hg, Bool.true_and] at h
      rw [if_neg (by simpa using hr)]
    · rw [if_neg hg]
  | snapshotOp sdk restart => exact (snapshot_frames sys sdk restart).1
  | settingsOp req r1 r2 => exact update_settings_current_frame sys req r1 r2
  | disconnectOp => exact disconnect_current_frame sys

/-- Helper: an operation that stores a frame leaves the shared current-frame
buffer holding one. -/
theorem applyOp_frame_some (sys : Sys) (op : Op) (h : storesFrame sys op = true) :
    (applyOp sys op).st.current_frame.isSome = true := by
  cases op with
  | loopIter r img =>
    simp only [storesFrame, Bool.and_eq_true, beq_iff_eq] at h
    obtain ⟨⟨hstr, hop⟩, hr⟩ := h
    have hg : (sys.cam.streaming && sys.cam.is_open) = true := by
      rw [hstr, hop]
      rfl
    simp only [applyOp]
    rw [if_pos hg, (captureLoopIter_frame sys 0 r img).1, if_pos hr]
    rfl
  | connectOp sdk => simp [storesFrame] at h
  | startStreamOp r => simp [storesFrame] at h
  | stopStreamOp => simp [storesFrame] at h
  | snapshotOp sdk restart => simp [storesFrame] at h
  | settingsOp req r1 r2 => simp [storesFrame] at h
  | disconnectOp => simp [storesFrame] at h

/-- Helper: once a frame is present, no operation ever clears it. -/
theorem applyOp_frame_isSome (sys : Sys) (op : Op)
    (h : sys.st.current_frame.isSome = true) :
    (applyOp sys op).st.current_frame.isSome = true := by
  by_cases hs : storesFrame sys op = true
  · exact applyOp_frame_some sys op hs
  · rw [applyOp_frame_none sys op (by simpa using hs)]
    exact h

/-- Helper: once a frame is present, it stays present over any run. -/
theorem runOps_frame_isSome (ops : List Op) : ∀ sys : Sys,
    sys.st.current_frame.isSome = true →
    (runOps sys ops).st.current_frame.isSome = true := by
  induction ops with
  | nil =>
    intro sys h
    simpa [runOps] using h
  | cons op rest ih =>
    intro sys h
    have hstep : runOps sys (op :: rest) = runOps (applyOp sys op) rest := rfl
    rw [hstep]
    exact ih (applyOp sys op) (applyOp_frame_isSome sys op h)

/-- Helper: the shared current-frame buffer is empty after a run exactly
when it started empty and no operation of the run stored a frame. -/
theorem runOps_frame_none (ops : List Op) : ∀ sys : Sys,
    ((runOps sys ops).st.current_frame = none ↔
      (sys.st.current_frame = none ∧ anyStore sys ops = false)) := by
  induction ops with
  | nil =>
    intro sys
    simp [runOps, anyStore]
  | cons op rest ih =>
    intro sys
    have hstep : runOps sys (op :: rest) = runOps (applyOp sys op) rest := rfl
    rw [hstep]
    by_cases hs : storesFrame sys op = true
    · constructor
      · intro hnone
        exfalso
        have hsome := runOps_frame_isSome rest (applyOp sys op) (applyOp_frame_some sys op hs)
        rw [hnone] at hsome
        simp at hsome
      · rintro ⟨h1, h2⟩
        exfalso
        simp only [anyStore, hs, Bool.true_or] at h2
        exact absurd h2 (by decide)
    · have hs' : storesFrame sys op = false := by simpa using hs
      rw [ih (applyOp sys op), applyOp_frame_none sys op hs']
      simp only [anyStore, hs', Bool.false_or]

/-- C10: for every run of the service from its initial state, the `/status`
answer's `lastSnapshot` field is `null` exactly when no operation of the run
ever stored a frame into the shared current-frame buffer; and whenever a
frame was stored, `lastSnapshot` is the timestamp of the status request
itself (`datetime.now()` at serving time), not the capture time.  Both
camera entries are identical. -/
theorem C10_last_snapshot (ops : List Op) (now : Timestamp) :
    ((get_status (runOps initSys ops) now).weatherCam.lastSnapshot = none ↔
      anyStore initSys ops = false)
  ∧ (anyStore initSys ops = true →
      (get_status (runOps initSys ops) now).weatherCam.lastSnapshot = some now)
  ∧ (get_status (runOps initSys ops) now).meteorCam =
      (get_status (runOps initSys ops) now).weatherCam := by
  have hrun := runOps_frame_none ops initSys
  have hinit : initSys.st.current_frame = none := rfl
  refine ⟨?_, ?_, rfl⟩
  · unfold get_status
    dsimp only
    by_cases hf : (runOps initSys ops).st.current_frame = none
    · rw [if_neg (by simp [hf])]
      simp only [true_iff]
      exact (hrun.mp hf).2
    · rw [if_pos (Option.ne_none_iff_isSome.mp hf)]
      constructor
      · intro hcon
        exact absurd hcon (by simp)
      · intro hstore
        exact (hf (hrun.mpr ⟨hinit, hstore⟩)).elim
  · intro hstore
    have hf : (runOps initSys ops).st.current_frame ≠ none := by
      intro hn
      have hfalse := (hrun.mp hn).2
      rw [hstore] at hfalse
      cases hfalse
    unfold get_status
    dsimp only
    rw [if_pos (Option.ne_none_iff_isSome.mp hf)]

/-- C10 witness: connect, start streaming, pull one good frame, then ask for
status at instant 42: `lastSnapshot` is instant 42. -/
theorem C10_last_snapshot_witness :
    (get_status (runOps initSys c10ops) 42).weatherCam.lastSnapshot = some 42 :=
  (C10_last_snapshot c10ops 42).2.1 (by decide)

/-- C5 witness: concrete evaluation of the timeout facts — one loop
iteration at the default cap, and monotonicity at 100000 versus 200000 us. -/
theorem C5_video_timeout_formula_witness :
    (captureLoopIter initSys 0 2 []).events = [Event.getVideoData (timeout_ms 100000)]
  ∧ timeout_ms 100000 ≤ timeout_ms 200000 := by
  constructor
  · exact (C5_video_timeout_formula initSys 0 2 []).1
  · exact (C5_video_timeout_formula initSys 0 2 []).2.2.1 100000 200000 (by norm_num)

end CameraService
